import Mathlib

/-!
Shallow embedding of `src/prefect/orion/schemas/filters.py`: the filter
schemas (leaf filters, composite filters, pagination), their construction-time
root validators, and their `as_sql_filter` compilation to SQL expression
fragments.

Modelling conventions:
- Python `Optional` fields default to `None`; they are `Option` here and a
  constructor function `mk<Type>` plays the role of pydantic construction,
  running the inherited `PrefectFilterBaseModel` root validators in their
  definition order and reporting the first violated rule as an error.
- UUIDs are `Nat`, datetimes are `Int` (`datetime.datetime` values are totally
  ordered and always truthy in Python, so presence of a datetime field equals
  its truthiness).
- SQLAlchemy column expressions (`col.in_`, `col.not_in`, `col == []`,
  `col == None`, `col.between`, `<=`, `>=`, `json_has_all_keys`, `sa.and_`)
  are constructors of an expression datatype. A Python code path that produces
  no expression (an implicit `return None` fall-through, or passing `None`
  where SQLAlchemy requires a list) is `Option.none`.
-/

deriving instance DecidableEq for Except

namespace PrefectFilters

/-- UUIDs are opaque identifiers; their structure is irrelevant to filters. -/
abbrev UUID := Nat

/-- Datetimes are modelled as integers with the usual order. -/
abbrev DateTime := Int

/-- Modelled from the spec: `schemas.states.StateType` (not under `src/`) is an
enumerated run-state type; its exact constructors are irrelevant to the
filters, which only carry lists of such values. -/
inductive StateType
  | scheduled
  | pending
  | running
  | completed
  | failed
  | cancelled
deriving DecidableEq, Repr

/-- The ORM columns referenced by the filters in `as_sql_filter`. -/
inductive Column
  | flowId
  | flowName
  | flowTags
  | flowRunId
  | flowRunTags
  | flowRunDeploymentId
  | flowRunStateType
  | flowRunFlowVersion
  | flowRunStartTime
  | flowRunExpectedStartTime
  | flowRunNextScheduledStartTime
  | flowRunParentTaskRunId
  | taskRunId
  | taskRunTags
  | taskRunStateType
  | taskRunStartTime
deriving DecidableEq, Repr

/-- Values appearing in filter operator lists. -/
inductive Value
  | uuid (u : UUID)
  | str (s : String)
  | state (s : StateType)
deriving DecidableEq, Repr

/-- A single SQLAlchemy comparison/literal expression as produced by a leaf
filter (or the literal `True` passed to `sa.and_` by a composite filter).
`eqEmptyList c` is `c == []`, `neEmptyList c` is `c != []`, `eqNull c` is
`c == None`, `neNull c` is `c != None`. -/
inductive SqlFragment
  | boolLit (b : Bool)
  | inList (c : Column) (vs : List Value)
  | notInList (c : Column) (vs : List Value)
  | jsonHasAllKeys (c : Column) (ks : List String)
  | eqEmptyList (c : Column)
  | neEmptyList (c : Column)
  | eqNull (c : Column)
  | neNull (c : Column)
  | between (c : Column) (lo hi : DateTime)
  | le (c : Column) (t : DateTime)
  | ge (c : Column) (t : DateTime)
deriving DecidableEq, Repr

/-- The conjunction produced by a composite filter: `sa.and_(*filters)`.
The code never nests conjunctions, so children are single fragments. -/
inductive SqlExpr
  | and (children : List SqlFragment)
deriving DecidableEq, Repr

/-- The errors the construction-time validators raise, named as in the spec.
The source raises `ValueError` with a distinguishing message for each rule. -/
inductive FilterError
  | missingOperator
  | conflictingOperators
  | invalidRange
  | outOfRange
deriving DecidableEq, Repr

/-- Python truthiness of an optional boolean value (`values.get("is_null_")`):
`None` and `False` are falsy. -/
def truthyBool (o : Option Bool) : Bool :=
  o.getD false

/-- Python truthiness of an optional list value (`values.get("not_any_")`):
`None` and the empty list are falsy. -/
def truthyList {α : Type} (o : Option (List α)) : Bool :=
  match o with
  | some l => !l.isEmpty
  | none => false

/-- `sa.and_(*filters)` raises when handed a `None` argument, so the children
list is only well-formed when every collected fragment is present. -/
def collectSome {α : Type} : List (Option α) → Option (List α)
  | [] => some []
  | none :: _ => none
  | some x :: rest => (collectSome rest).map (fun l => x :: l)

/-- `FlowFilterId`: `any_ : Optional[List[UUID]]`. -/
structure FlowFilterId where
  any_ : Option (List UUID)
deriving DecidableEq, Repr

/-- Pydantic construction of `FlowFilterId`; only the at-least-one-operator
validator can fire (the type has no `all_`, `is_null_`, `not_any_`, `before_`
or `after_` key, so the other inherited validators pass vacuously). -/
def mkFlowFilterId (any_ : Option (List UUID)) : Except FilterError FlowFilterId :=
  if !any_.isSome then .error .missingOperator
  else .ok ⟨any_⟩

/-- `orm.Flow.id.in_(self.any_)`; with `any_ = None` SQLAlchemy raises, so no
fragment is produced. -/
def FlowFilterId.as_sql_filter (f : FlowFilterId) : Option SqlFragment :=
  f.any_.map (fun vs => .inList .flowId (vs.map Value.uuid))

/-- `FlowFilterName`: `any_ : Optional[List[str]]`. -/
structure FlowFilterName where
  any_ : Option (List String)
deriving DecidableEq, Repr

/-- Pydantic construction of `FlowFilterName`. -/
def mkFlowFilterName (any_ : Option (List String)) : Except FilterError FlowFilterName :=
  if !any_.isSome then .error .missingOperator
  else .ok ⟨any_⟩

/-- `orm.Flow.name.in_(self.any_)`. -/
def FlowFilterName.as_sql_filter (f : FlowFilterName) : Option SqlFragment :=
  f.any_.map (fun vs => .inList .flowName (vs.map Value.str))

/-- `FlowFilterTags`: `all_ : Optional[List[str]]`, `is_null_ : Optional[bool]`. -/
structure FlowFilterTags where
  all_ : Option (List String)
  is_null_ : Option Bool
deriving DecidableEq, Repr

/-- Pydantic construction of `FlowFilterTags`: first the at-least-one-operator
rule, then the `all_`/`is_null_` rule, which fires only when `is_null_` is
truthy (`values.get("is_null_")` in the source is a truthiness test, so
`is_null_ = False` does not conflict). -/
def mkFlowFilterTags (all_ : Option (List String)) (is_null_ : Option Bool) :
    Except FilterError FlowFilterTags :=
  if !(all_.isSome || is_null_.isSome) then .error .missingOperator
  else if all_.isSome && truthyBool is_null_ then .error .conflictingOperators
  else .ok ⟨all_, is_null_⟩

/-- `json_has_all_keys(orm.Flow.tags, self.all_)` when `all_` is set, else
`orm.Flow.tags == []` / `orm.Flow.tags != []` on `is_null_`, else the implicit
Python `None`. -/
def FlowFilterTags.as_sql_filter (f : FlowFilterTags) : Option SqlFragment :=
  match f.all_ with
  | some ks => some (.jsonHasAllKeys .flowTags ks)
  | none =>
    match f.is_null_ with
    | some b => some (if b then .eqEmptyList .flowTags else .neEmptyList .flowTags)
    | none => none

/-- `FlowRunFilterId`: `any_`, `not_any_ : Optional[List[UUID]]`. -/
structure FlowRunFilterId where
  any_ : Option (List UUID)
  not_any_ : Option (List UUID)
deriving DecidableEq, Repr

/-- Pydantic construction of `FlowRunFilterId`: the `any_`/`not_any_` rule
fires only when `not_any_` is truthy (a non-empty list). -/
def mkFlowRunFilterId (any_ not_any_ : Option (List UUID)) :
    Except FilterError FlowRunFilterId :=
  if !(any_.isSome || not_any_.isSome) then .error .missingOperator
  else if any_.isSome && truthyList not_any_ then .error .conflictingOperators
  else .ok ⟨any_, not_any_⟩

/-- `orm.FlowRun.id.in_(self.any_)` when `any_` is set, else
`orm.FlowRun.id.not_in(self.not_any_)` when `not_any_` is set. -/
def FlowRunFilterId.as_sql_filter (f : FlowRunFilterId) : Option SqlFragment :=
  match f.any_ with
  | some vs => some (.inList .flowRunId (vs.map Value.uuid))
  | none =>
    match f.not_any_ with
    | some vs => some (.notInList .flowRunId (vs.map Value.uuid))
    | none => none

/-- `FlowRunFilterTags`: `all_ : Optional[List[str]]`, `is_null_ : Optional[bool]`. -/
structure FlowRunFilterTags where
  all_ : Option (List String)
  is_null_ : Option Bool
deriving DecidableEq, Repr

/-- Pydantic construction of `FlowRunFilterTags`. -/
def mkFlowRunFilterTags (all_ : Option (List String)) (is_null_ : Option Bool) :
    Except FilterError FlowRunFilterTags :=
  if !(all_.isSome || is_null_.isSome) then .error .missingOperator
  else if all_.isSome && truthyBool is_null_ then .error .conflictingOperators
  else .ok ⟨all_, is_null_⟩

/-- Same dispatch as `FlowFilterTags.as_sql_filter`, on `orm.FlowRun.tags`. -/
def FlowRunFilterTags.as_sql_filter (f : FlowRunFilterTags) : Option SqlFragment :=
  match f.all_ with
  | some ks => some (.jsonHasAllKeys .flowRunTags ks)
  | none =>
    match f.is_null_ with
    | some b => some (if b then .eqEmptyList .flowRunTags else .neEmptyList .flowRunTags)
    | none => none

/-- `FlowRunFilterDeploymentId`: `any_ : Optional[List[UUID]]`,
`is_null_ : Optional[bool]`. -/
structure FlowRunFilterDeploymentId where
  any_ : Option (List UUID)
  is_null_ : Option Bool
deriving DecidableEq, Repr

/-- Pydantic construction of `FlowRunFilterDeploymentId`: the `any_`/`is_null_`
rule fires only when `is_null_` is truthy. -/
def mkFlowRunFilterDeploymentId (any_ : Option (List UUID)) (is_null_ : Option Bool) :
    Except FilterError FlowRunFilterDeploymentId :=
  if !(any_.isSome || is_null_.isSome) then .error .missingOperator
  else if any_.isSome && truthyBool is_null_ then .error .conflictingOperators
  else .ok ⟨any_, is_null_⟩

/-- `orm.FlowRun.deployment_id.in_(self.any_)` when `any_` is set, else
`deployment_id == None` / `deployment_id != None` on the foreign-key column. -/
def FlowRunFilterDeploymentId.as_sql_filter (f : FlowRunFilterDeploymentId) :
    Option SqlFragment :=
  match f.any_ with
  | some vs => some (.inList .flowRunDeploymentId (vs.map Value.uuid))
  | none =>
    match f.is_null_ with
    | some b => some (if b then .eqNull .flowRunDeploymentId else .neNull .flowRunDeploymentId)
    | none => none

/-- `FlowRunFilterStateType`: `any_ : Optional[List[StateType]]`. -/
structure FlowRunFilterStateType where
  any_ : Option (List StateType)
deriving DecidableEq, Repr

/-- Pydantic construction of `FlowRunFilterStateType`. -/
def mkFlowRunFilterStateType (any_ : Option (List StateType)) :
    Except FilterError FlowRunFilterStateType :=
  if !any_.isSome then .error .missingOperator
  else .ok ⟨any_⟩

/-- `orm.FlowRun.state_type.in_(self.any_)`. -/
def FlowRunFilterStateType.as_sql_filter (f : FlowRunFilterStateType) :
    Option SqlFragment :=
  f.any_.map (fun vs => .inList .flowRunStateType (vs.map Value.state))

/-- `FlowRunFilterFlowVersion`: `any_ : Optional[List[str]]`. -/
structure FlowRunFilterFlowVersion where
  any_ : Option (List String)
deriving DecidableEq, Repr

/-- Pydantic construction of `FlowRunFilterFlowVersion`. -/
def mkFlowRunFilterFlowVersion (any_ : Option (List String)) :
    Except FilterError FlowRunFilterFlowVersion :=
  if !any_.isSome then .error .missingOperator
  else .ok ⟨any_⟩

/-- `orm.FlowRun.flow_version.in_(self.any_)`. -/
def FlowRunFilterFlowVersion.as_sql_filter (f : FlowRunFilterFlowVersion) :
    Option SqlFragment :=
  f.any_.map (fun vs => .inList .flowRunFlowVersion (vs.map Value.str))

/-- `FlowRunFilterStartTime`: `before_`, `after_ : Optional[datetime]`. -/
structure FlowRunFilterStartTime where
  before_ : Option DateTime
  after_ : Option DateTime
deriving DecidableEq, Repr

/-- Pydantic construction of `FlowRunFilterStartTime`: at-least-one-operator,
then the range rule, which with both bounds present rejects `before_ < after_`. -/
def mkFlowRunFilterStartTime (before_ after_ : Option DateTime) :
    Except FilterError FlowRunFilterStartTime :=
  if !(before_.isSome || after_.isSome) then .error .missingOperator
  else
    match before_, after_ with
    | some b, some a => if b < a then .error .invalidRange else .ok ⟨some b, some a⟩
    | _, _ => .ok ⟨before_, after_⟩

/-- `if self.before_ and self.after_` is a truthiness test, but datetime
objects are always truthy, so presence decides the branch:
`between(after_, before_)`, else `<= before_`, else `>= after_`,
else the implicit Python `None`. -/
def FlowRunFilterStartTime.as_sql_filter (f : FlowRunFilterStartTime) :
    Option SqlFragment :=
  match f.before_, f.after_ with
  | some b, some a => some (.between .flowRunStartTime a b)
  | some b, none => some (.le .flowRunStartTime b)
  | none, some a => some (.ge .flowRunStartTime a)
  | none, none => none

/-- `FlowRunFilterExpectedStartTime`: `before_`, `after_ : Optional[datetime]`. -/
structure FlowRunFilterExpectedStartTime where
  before_ : Option DateTime
  after_ : Option DateTime
deriving DecidableEq, Repr

/-- Pydantic construction of `FlowRunFilterExpectedStartTime`. -/
def mkFlowRunFilterExpectedStartTime (before_ after_ : Option DateTime) :
    Except FilterError FlowRunFilterExpectedStartTime :=
  if !(before_.isSome || after_.isSome) then .error .missingOperator
  else
    match before_, after_ with
    | some b, some a => if b < a then .error .invalidRange else .ok ⟨some b, some a⟩
    | _, _ => .ok ⟨before_, after_⟩

/-- Range dispatch on `orm.FlowRun.expected_start_time`. -/
def FlowRunFilterExpectedStartTime.as_sql_filter (f : FlowRunFilterExpectedStartTime) :
    Option SqlFragment :=
  match f.before_, f.after_ with
  | some b, some a => some (.between .flowRunExpectedStartTime a b)
  | some b, none => some (.le .flowRunExpectedStartTime b)
  | none, some a => some (.ge .flowRunExpectedStartTime a)
  | none, none => none

/-- `FlowRunFilterNextScheduledStartTime`: `before_`, `after_ : Optional[datetime]`. -/
structure FlowRunFilterNextScheduledStartTime where
  before_ : Option DateTime
  after_ : Option DateTime
deriving DecidableEq, Repr

/-- Pydantic construction of `FlowRunFilterNextScheduledStartTime`. -/
def mkFlowRunFilterNextScheduledStartTime (before_ after_ : Option DateTime) :
    Except FilterError FlowRunFilterNextScheduledStartTime :=
  if !(before_.isSome || after_.isSome) then .error .missingOperator
  else
    match before_, after_ with
    | some b, some a => if b < a then .error .invalidRange else .ok ⟨some b, some a⟩
    | _, _ => .ok ⟨before_, after_⟩

/-- Range dispatch on `orm.FlowRun.next_scheduled_start_time`. -/
def FlowRunFilterNextScheduledStartTime.as_sql_filter
    (f : FlowRunFilterNextScheduledStartTime) : Option SqlFragment :=
  match f.before_, f.after_ with
  | some b, some a => some (.between .flowRunNextScheduledStartTime a b)
  | some b, none => some (.le .flowRunNextScheduledStartTime b)
  | none, some a => some (.ge .flowRunNextScheduledStartTime a)
  | none, none => none

/-- `FlowRunFilterParentTaskRunId`: `any_ : Optional[List[UUID]]`,
`is_null_ : Optional[bool]`. -/
structure FlowRunFilterParentTaskRunId where
  any_ : Option (List UUID)
  is_null_ : Option Bool
deriving DecidableEq, Repr

/-- Pydantic construction of `FlowRunFilterParentTaskRunId`. -/
def mkFlowRunFilterParentTaskRunId (any_ : Option (List UUID)) (is_null_ : Option Bool) :
    Except FilterError FlowRunFilterParentTaskRunId :=
  if !(any_.isSome || is_null_.isSome) then .error .missingOperator
  else if any_.isSome && truthyBool is_null_ then .error .conflictingOperators
  else .ok ⟨any_, is_null_⟩

/-- `orm.FlowRun.parent_task_run_id.in_(self.any_)` when `any_` is set, else
`parent_task_run_id == None` / `!= None` on the foreign-key column. -/
def FlowRunFilterParentTaskRunId.as_sql_filter (f : FlowRunFilterParentTaskRunId) :
    Option SqlFragment :=
  match f.any_ with
  | some vs => some (.inList .flowRunParentTaskRunId (vs.map Value.uuid))
  | none =>
    match f.is_null_ with
    | some b =>
      some (if b then .eqNull .flowRunParentTaskRunId else .neNull .flowRunParentTaskRunId)
    | none => none

/-- `TaskRunFilterId`: `any_ : Optional[List[UUID]]`. -/
structure TaskRunFilterId where
  any_ : Option (List UUID)
deriving DecidableEq, Repr

/-- Pydantic construction of `TaskRunFilterId`. -/
def mkTaskRunFilterId (any_ : Option (List UUID)) : Except FilterError TaskRunFilterId :=
  if !any_.isSome then .error .missingOperator
  else .ok ⟨any_⟩

/-- `orm.TaskRun.id.in_(self.any_)`. -/
def TaskRunFilterId.as_sql_filter (f : TaskRunFilterId) : Option SqlFragment :=
  f.any_.map (fun vs => .inList .taskRunId (vs.map Value.uuid))

/-- `TaskRunFilterTags`: `all_ : Optional[List[str]]`, `is_null_ : Optional[bool]`. -/
structure TaskRunFilterTags where
  all_ : Option (List String)
  is_null_ : Option Bool
deriving DecidableEq, Repr

/-- Pydantic construction of `TaskRunFilterTags`. -/
def mkTaskRunFilterTags (all_ : Option (List String)) (is_null_ : Option Bool) :
    Except FilterError TaskRunFilterTags :=
  if !(all_.isSome || is_null_.isSome) then .error .missingOperator
  else if all_.isSome && truthyBool is_null_ then .error .conflictingOperators
  else .ok ⟨all_, is_null_⟩

/-- Same dispatch as `FlowFilterTags.as_sql_filter`, on `orm.TaskRun.tags`. -/
def TaskRunFilterTags.as_sql_filter (f : TaskRunFilterTags) : Option SqlFragment :=
  match f.all_ with
  | some ks => some (.jsonHasAllKeys .taskRunTags ks)
  | none =>
    match f.is_null_ with
    | some b => some (if b then .eqEmptyList .taskRunTags else .neEmptyList .taskRunTags)
    | none => none

/-- `TaskRunFilterStateType`: `any_ : Optional[List[StateType]]`. -/
structure TaskRunFilterStateType where
  any_ : Option (List StateType)
deriving DecidableEq, Repr

/-- Pydantic construction of `TaskRunFilterStateType`. -/
def mkTaskRunFilterStateType (any_ : Option (List StateType)) :
    Except FilterError TaskRunFilterStateType :=
  if !any_.isSome then .error .missingOperator
  else .ok ⟨any_⟩

/-- `orm.TaskRun.state_type.in_(self.any_)`. -/
def TaskRunFilterStateType.as_sql_filter (f : TaskRunFilterStateType) :
    Option SqlFragment :=
  f.any_.map (fun vs => .inList .taskRunStateType (vs.map Value.state))

/-- `TaskRunFilterStartTime`: `before_`, `after_ : Optional[datetime]`. -/
structure TaskRunFilterStartTime where
  before_ : Option DateTime
  after_ : Option DateTime
deriving DecidableEq, Repr

/-- Pydantic construction of `TaskRunFilterStartTime`. -/
def mkTaskRunFilterStartTime (before_ after_ : Option DateTime) :
    Except FilterError TaskRunFilterStartTime :=
  if !(before_.isSome || after_.isSome) then .error .missingOperator
  else
    match before_, after_ with
    | some b, some a => if b < a then .error .invalidRange else .ok ⟨some b, some a⟩
    | _, _ => .ok ⟨before_, after_⟩

/-- Range dispatch on `orm.TaskRun.start_time`. -/
def TaskRunFilterStartTime.as_sql_filter (f : TaskRunFilterStartTime) :
    Option SqlFragment :=
  match f.before_, f.after_ with
  | some b, some a => some (.between .taskRunStartTime a b)
  | some b, none => some (.le .taskRunStartTime b)
  | none, some a => some (.ge .taskRunStartTime a)
  | none, none => none

/-- `FlowFilter`: optional leaf filter per filterable field of Flow, fields in
declared order `id`, `name`, `tags`. It also inherits
`PrefectFilterBaseModel`, so the at-least-one-operator root validator runs on
it too. -/
structure FlowFilter where
  id : Option FlowFilterId
  name : Option FlowFilterName
  tags : Option FlowFilterTags
deriving DecidableEq, Repr

/-- Pydantic construction of `FlowFilter`: the inherited
at-least-one-operator validator rejects the composite when every field is
`None`; the pair and range validators pass vacuously (no `all_`, `any_`,
`not_any_`, `is_null_`, `before_`, `after_` keys). -/
def mkFlowFilter (id : Option FlowFilterId) (name : Option FlowFilterName)
    (tags : Option FlowFilterTags) : Except FilterError FlowFilter :=
  if !(id.isSome || name.isSome || tags.isSome) then .error .missingOperator
  else .ok ⟨id, name, tags⟩

/-- The `filters` list built by `FlowFilter.as_sql_filter`, appending each
present leaf's fragment in source order: `id`, `name`, `tags`. -/
def FlowFilter.collect_filters (f : FlowFilter) : List (Option SqlFragment) :=
  let filters : List (Option SqlFragment) := []
  let filters := match f.id with
    | some g => filters ++ [g.as_sql_filter]
    | none => filters
  let filters := match f.name with
    | some g => filters ++ [g.as_sql_filter]
    | none => filters
  let filters := match f.tags with
    | some g => filters ++ [g.as_sql_filter]
    | none => filters
  filters

/-- `sa.and_(*filters) if filters else sa.and_(True)`. -/
def FlowFilter.as_sql_filter (f : FlowFilter) : Option SqlExpr :=
  let filters := f.collect_filters
  if filters.isEmpty then some (.and [.boolLit true])
  else (collectSome filters).map .and

/-- `FlowRunFilter`: fields in declared order `id`, `tags`, `deployment_id`,
`state_type`, `flow_version`, `start_time`, `expected_start_time`,
`next_scheduled_start_time`, `parent_task_run_id`. -/
structure FlowRunFilter where
  id : Option FlowRunFilterId
  tags : Option FlowRunFilterTags
  deployment_id : Option FlowRunFilterDeploymentId
  state_type : Option FlowRunFilterStateType
  flow_version : Option FlowRunFilterFlowVersion
  start_time : Option FlowRunFilterStartTime
  expected_start_time : Option FlowRunFilterExpectedStartTime
  next_scheduled_start_time : Option FlowRunFilterNextScheduledStartTime
  parent_task_run_id : Option FlowRunFilterParentTaskRunId
deriving DecidableEq, Repr

/-- Pydantic construction of `FlowRunFilter` (inherited at-least-one-operator
validator; the others pass vacuously). -/
def mkFlowRunFilter (id : Option FlowRunFilterId) (tags : Option FlowRunFilterTags)
    (deployment_id : Option FlowRunFilterDeploymentId)
    (state_type : Option FlowRunFilterStateType)
    (flow_version : Option FlowRunFilterFlowVersion)
    (start_time : Option FlowRunFilterStartTime)
    (expected_start_time : Option FlowRunFilterExpectedStartTime)
    (next_scheduled_start_time : Option FlowRunFilterNextScheduledStartTime)
    (parent_task_run_id : Option FlowRunFilterParentTaskRunId) :
    Except FilterError FlowRunFilter :=
  if !(id.isSome || tags.isSome || deployment_id.isSome || state_type.isSome ||
      flow_version.isSome || start_time.isSome || expected_start_time.isSome ||
      next_scheduled_start_time.isSome || parent_task_run_id.isSome) then
    .error .missingOperator
  else
    .ok ⟨id, tags, deployment_id, state_type, flow_version, start_time,
      expected_start_time, next_scheduled_start_time, parent_task_run_id⟩

/-- The `filters` list built by `FlowRunFilter.as_sql_filter`, appending each
present leaf's fragment in source append order: `id`, `tags`, `deployment_id`,
`flow_version`, `state_type`, `start_time`, `expected_start_time`,
`next_scheduled_start_time`, `parent_task_run_id` (note: the source appends
`flow_version` before `state_type`, unlike the declared field order). -/
def FlowRunFilter.collect_filters (f : FlowRunFilter) : List (Option SqlFragment) :=
  let filters : List (Option SqlFragment) := []
  let filters := match f.id with
    | some g => filters ++ [g.as_sql_filter]
    | none => filters
  let filters := match f.tags with
    | some g => filters ++ [g.as_sql_filter]
    | none => filters
  let filters := match f.deployment_id with
    | some g => filters ++ [g.as_sql_filter]
    | none => filters
  let filters := match f.flow_version with
    | some g => filters ++ [g.as_sql_filter]
    | none => filters
  let filters := match f.state_type with
    | some g => filters ++ [g.as_sql_filter]
    | none => filters
  let filters := match f.start_time with
    | some g => filters ++ [g.as_sql_filter]
    | none => filters
  let filters := match f.expected_start_time with
    | some g => filters ++ [g.as_sql_filter]
    | none => filters
  let filters := match f.next_scheduled_start_time with
    | some g => filters ++ [g.as_sql_filter]
    | none => filters
  let filters := match f.parent_task_run_id with
    | some g => filters ++ [g.as_sql_filter]
    | none => filters
  filters

/-- `sa.and_(*filters) if filters else sa.and_(True)`. -/
def FlowRunFilter.as_sql_filter (f : FlowRunFilter) : Option SqlExpr :=
  let filters := f.collect_filters
  if filters.isEmpty then some (.and [.boolLit true])
  else (collectSome filters).map .and

/-- `TaskRunFilter`: fields in declared order `id`, `tags`, `state_type`,
`start_time`. -/
structure TaskRunFilter where
  id : Option TaskRunFilterId
  tags : Option TaskRunFilterTags
  state_type : Option TaskRunFilterStateType
  start_time : Option TaskRunFilterStartTime
deriving DecidableEq, Repr

/-- Pydantic construction of `TaskRunFilter` (inherited at-least-one-operator
validator; the others pass vacuously). -/
def mkTaskRunFilter (id : Option TaskRunFilterId) (tags : Option TaskRunFilterTags)
    (state_type : Option TaskRunFilterStateType)
    (start_time : Option TaskRunFilterStartTime) : Except FilterError TaskRunFilter :=
  if !(id.isSome || tags.isSome || state_type.isSome || start_time.isSome) then
    .error .missingOperator
  else .ok ⟨id, tags, state_type, start_time⟩

/-- The `filters` list built by `TaskRunFilter.as_sql_filter`, in source
append order `id`, `tags`, `state_type`, `start_time`. -/
def TaskRunFilter.collect_filters (f : TaskRunFilter) : List (Option SqlFragment) :=
  let filters : List (Option SqlFragment) := []
  let filters := match f.id with
    | some g => filters ++ [g.as_sql_filter]
    | none => filters
  let filters := match f.tags with
    | some g => filters ++ [g.as_sql_filter]
    | none => filters
  let filters := match f.state_type with
    | some g => filters ++ [g.as_sql_filter]
    | none => filters
  let filters := match f.start_time with
    | some g => filters ++ [g.as_sql_filter]
    | none => filters
  filters

/-- `sa.and_(*filters) if filters else sa.and_(True)`. -/
def TaskRunFilter.as_sql_filter (f : TaskRunFilter) : Option SqlExpr :=
  let filters := f.collect_filters
  if filters.isEmpty then some (.and [.boolLit true])
  else (collectSome filters).map .and

/-- `Pagination`: `limit` with `conint(ge=0, le=default_limit)` defaulting to
`default_limit`, and `offset` with `conint(ge=0)` defaulting to 0. -/
structure Pagination where
  limit : Int
  offset : Int
deriving DecidableEq, Repr

/-- Pydantic construction of `Pagination`, with the configured setting
`prefect.settings.orion.api.default_limit` (defined outside `src/`) passed in
as `default_limit`. `conint` bounds are checked on supplied values; an absent
field takes its default without re-validation (pydantic does not validate
defaults). An out-of-bounds supplied value is the OutOfRange error. -/
def mkPagination (default_limit : Int) (limit offset : Option Int) :
    Except FilterError Pagination :=
  let l := limit.getD default_limit
  let o := offset.getD 0
  if (limit.isSome && (l < 0 || default_limit < l)) || (offset.isSome && o < 0) then
    .error .outOfRange
  else .ok ⟨l, o⟩

/-- Claim C1: the spec says a composite filter with no leaf filters populated
is valid and compiles to the zero-child always-true conjunction, but the
composite types inherit the at-least-one-operator root validator from
PrefectFilterBaseModel, which rejects exactly that input at construction.
Evaluating the code at the failing input: construction of each empty composite
errors, while the `sa.and_(True)` fallback branch of `as_sql_filter`
(evaluated here directly on the raw record) would indeed produce the
always-true conjunction — it is unreachable through construction. -/
theorem c1_empty_composite_rejected_at_construction :
    mkFlowFilter none none none = .error .missingOperator ∧
    mkFlowRunFilter none none none none none none none none none =
      .error .missingOperator ∧
    mkTaskRunFilter none none none none = .error .missingOperator ∧
    FlowFilter.as_sql_filter ⟨none, none, none⟩ = some (.and [.boolLit true]) ∧
    FlowRunFilter.as_sql_filter ⟨none, none, none, none, none, none, none, none, none⟩ =
      some (.and [.boolLit true]) ∧
    TaskRunFilter.as_sql_filter ⟨none, none, none, none⟩ = some (.and [.boolLit true]) :=
  ⟨rfl, rfl, rfl, rfl, rfl, rfl⟩

/-- Claim C2 counterexample: both attributes of a mutually exclusive pair are
present, yet construction succeeds, because the validators test the second
attribute for truthiness, not presence: `all_` together with `is_null_ = False`
passes, and `any_` together with `not_any_ = []` passes. -/
theorem c2_counterexample_truthiness_not_presence :
    mkFlowFilterTags (some ["t"]) (some false) = .ok ⟨some ["t"], some false⟩ ∧
    mkFlowRunFilterId (some [1]) (some []) = .ok ⟨some [1], some []⟩ :=
  ⟨rfl, rfl⟩

/-- Claim C2 amended: for every leaf filter with a mutually exclusive operator
pair, construction fails with ConflictingOperators exactly when the first
attribute of the pair (`all_` or `any_`) is present and the second is truthy:
`is_null_ = True` for the `all_`/`is_null_` and `any_`/`is_null_` pairs, and a
non-empty `not_any_` list for the `any_`/`not_any_` pair. -/
theorem c2_conflicting_operators_iff_truthy :
    (∀ a i, mkFlowFilterTags a i = .error .conflictingOperators ↔
      a.isSome = true ∧ i = some true) ∧
    (∀ a i, mkFlowRunFilterTags a i = .error .conflictingOperators ↔
      a.isSome = true ∧ i = some true) ∧
    (∀ a i, mkTaskRunFilterTags a i = .error .conflictingOperators ↔
      a.isSome = true ∧ i = some true) ∧
    (∀ a i, mkFlowRunFilterDeploymentId a i = .error .conflictingOperators ↔
      a.isSome = true ∧ i = some true) ∧
    (∀ a i, mkFlowRunFilterParentTaskRunId a i = .error .conflictingOperators ↔
      a.isSome = true ∧ i = some true) ∧
    (∀ a n, mkFlowRunFilterId a n = .error .conflictingOperators ↔
      a.isSome = true ∧ ∃ l, n = some l ∧ l ≠ []) := by
  refine ⟨?_, ?_, ?_, ?_, ?_, ?_⟩
  · intro a i
    rcases a with _ | l <;> rcases i with _ | bo
    · simp [mkFlowFilterTags]
    · simp [mkFlowFilterTags, truthyBool]
    · simp [mkFlowFilterTags, truthyBool]
    · cases bo <;> simp [mkFlowFilterTags, truthyBool]
  · intro a i
    rcases a with _ | l <;> rcases i with _ | bo
    · simp [mkFlowRunFilterTags]
    · simp [mkFlowRunFilterTags, truthyBool]
    · simp [mkFlowRunFilterTags, truthyBool]
    · cases bo <;> simp [mkFlowRunFilterTags, truthyBool]
  · intro a i
    rcases a with _ | l <;> rcases i with _ | bo
    · simp [mkTaskRunFilterTags]
    · simp [mkTaskRunFilterTags, truthyBool]
    · simp [mkTaskRunFilterTags, truthyBool]
    · cases bo <;> simp [mkTaskRunFilterTags, truthyBool]
  · intro a i
    rcases a with _ | l <;> rcases i with _ | bo
    · simp [mkFlowRunFilterDeploymentId]
    · simp [mkFlowRunFilterDeploymentId, truthyBool]
    · simp [mkFlowRunFilterDeploymentId, truthyBool]
    · cases bo <;> simp [mkFlowRunFilterDeploymentId, truthyBool]
  · intro a i
    rcases a with _ | l <;> rcases i with _ | bo
    · simp [mkFlowRunFilterParentTaskRunId]
    · simp [mkFlowRunFilterParentTaskRunId, truthyBool]
    · simp [mkFlowRunFilterParentTaskRunId, truthyBool]
    · cases bo <;> simp [mkFlowRunFilterParentTaskRunId, truthyBool]
  · intro a n
    rcases a with _ | l <;> rcases n with _ | m
    · simp [mkFlowRunFilterId]
    · simp [mkFlowRunFilterId, truthyList]
    · simp [mkFlowRunFilterId, truthyList]
    · rcases m with _ | ⟨v, m2⟩ <;> simp [mkFlowRunFilterId, truthyList]

/-- Claim C4: every leaf filter constructed with every operator attribute
absent fails with MissingOperator (the at-least-one-operator validator). -/
theorem c4_all_absent_missing_operator :
    mkFlowFilterId none = .error .missingOperator ∧
    mkFlowFilterName none = .error .missingOperator ∧
    mkFlowFilterTags none none = .error .missingOperator ∧
    mkFlowRunFilterId none none = .error .missingOperator ∧
    mkFlowRunFilterTags none none = .error .missingOperator ∧
    mkFlowRunFilterDeploymentId none none = .error .missingOperator ∧
    mkFlowRunFilterStateType none = .error .missingOperator ∧
    mkFlowRunFilterFlowVersion none = .error .missingOperator ∧
    mkFlowRunFilterStartTime none none = .error .missingOperator ∧
    mkFlowRunFilterExpectedStartTime none none = .error .missingOperator ∧
    mkFlowRunFilterNextScheduledStartTime none none = .error .missingOperator ∧
    mkFlowRunFilterParentTaskRunId none none = .error .missingOperator ∧
    mkTaskRunFilterId none = .error .missingOperator ∧
    mkTaskRunFilterTags none none = .error .missingOperator ∧
    mkTaskRunFilterStateType none = .error .missingOperator ∧
    mkTaskRunFilterStartTime none none = .error .missingOperator :=
  ⟨rfl, rfl, rfl, rfl, rfl, rfl, rfl, rfl, rfl, rfl, rfl, rfl, rfl, rfl, rfl, rfl⟩

/-- Claim C3 counterexample: a FlowRunFilter populated with both `state_type`
and `flow_version` leaves compiles with the `flow_version` fragment before the
`state_type` fragment, which differs from the declared-field-order conjunction
the claim states (the two orderings are distinct expressions). -/
theorem c3_counterexample_flow_version_before_state_type :
    mkFlowRunFilter none none none (some ⟨some [StateType.running]⟩)
        (some ⟨some ["v1"]⟩) none none none none =
      .ok ⟨none, none, none, some ⟨some [StateType.running]⟩, some ⟨some ["v1"]⟩,
        none, none, none, none⟩ ∧
    FlowRunFilter.as_sql_filter
        ⟨none, none, none, some ⟨some [StateType.running]⟩, some ⟨some ["v1"]⟩,
          none, none, none, none⟩ =
      some (.and [.inList .flowRunFlowVersion [Value.str "v1"],
        .inList .flowRunStateType [Value.state StateType.running]]) ∧
    SqlExpr.and [.inList .flowRunFlowVersion [Value.str "v1"],
        .inList .flowRunStateType [Value.state StateType.running]] ≠
      SqlExpr.and [.inList .flowRunStateType [Value.state StateType.running],
        .inList .flowRunFlowVersion [Value.str "v1"]] :=
  ⟨rfl, rfl, by decide⟩

set_option maxHeartbeats 4000000 in
/-- Claim C3 amended: FlowRunFilter compilation collects the fragments of its
populated leaf filters in the fixed source append order `id`, `tags`,
`deployment_id`, `flow_version`, `state_type`, `start_time`,
`expected_start_time`, `next_scheduled_start_time`, `parent_task_run_id`
(deterministic, but with `flow_version` before `state_type`, deviating from
the declared field order) and wraps them in a conjunction, falling back to the
always-true conjunction when no leaf is populated. -/
theorem c3_flow_run_fragment_order (f : FlowRunFilter) :
    f.as_sql_filter =
      (let frags :=
        (f.id.map FlowRunFilterId.as_sql_filter).toList ++
        (f.tags.map FlowRunFilterTags.as_sql_filter).toList ++
        (f.deployment_id.map FlowRunFilterDeploymentId.as_sql_filter).toList ++
        (f.flow_version.map FlowRunFilterFlowVersion.as_sql_filter).toList ++
        (f.state_type.map FlowRunFilterStateType.as_sql_filter).toList ++
        (f.start_time.map FlowRunFilterStartTime.as_sql_filter).toList ++
        (f.expected_start_time.map FlowRunFilterExpectedStartTime.as_sql_filter).toList ++
        (f.next_scheduled_start_time.map
          FlowRunFilterNextScheduledStartTime.as_sql_filter).toList ++
        (f.parent_task_run_id.map FlowRunFilterParentTaskRunId.as_sql_filter).toList
      if frags.isEmpty then some (.and [.boolLit true])
      else (collectSome frags).map .and) := by
  obtain ⟨i, t, d, st, fv, s, e, n, p⟩ := f
  cases i <;> cases t <;> cases d <;> cases st <;> cases fv <;> cases s <;> cases e <;>
    cases n <;> cases p <;> rfl

/-- Claim C5: for every range filter with both bounds supplied, construction
fails with InvalidRange exactly when `before_` is strictly earlier than
`after_`; equal bounds succeed and compile to BETWEEN with equal low and high
bounds. -/
theorem c5_range_bounds_validation (b a : DateTime) :
    (mkFlowRunFilterStartTime (some b) (some a) =
      if b < a then .error .invalidRange else .ok ⟨some b, some a⟩) ∧
    mkFlowRunFilterStartTime (some b) (some b) = .ok ⟨some b, some b⟩ ∧
    FlowRunFilterStartTime.as_sql_filter ⟨some b, some b⟩ =
      some (.between .flowRunStartTime b b) ∧
    (mkFlowRunFilterExpectedStartTime (some b) (some a) =
      if b < a then .error .invalidRange else .ok ⟨some b, some a⟩) ∧
    mkFlowRunFilterExpectedStartTime (some b) (some b) = .ok ⟨some b, some b⟩ ∧
    FlowRunFilterExpectedStartTime.as_sql_filter ⟨some b, some b⟩ =
      some (.between .flowRunExpectedStartTime b b) ∧
    (mkFlowRunFilterNextScheduledStartTime (some b) (some a) =
      if b < a then .error .invalidRange else .ok ⟨some b, some a⟩) ∧
    mkFlowRunFilterNextScheduledStartTime (some b) (some b) = .ok ⟨some b, some b⟩ ∧
    FlowRunFilterNextScheduledStartTime.as_sql_filter ⟨some b, some b⟩ =
      some (.between .flowRunNextScheduledStartTime b b) ∧
    (mkTaskRunFilterStartTime (some b) (some a) =
      if b < a then .error .invalidRange else .ok ⟨some b, some a⟩) ∧
    mkTaskRunFilterStartTime (some b) (some b) = .ok ⟨some b, some b⟩ ∧
    TaskRunFilterStartTime.as_sql_filter ⟨some b, some b⟩ =
      some (.between .taskRunStartTime b b) := by
  refine ⟨rfl, ?_, rfl, rfl, ?_, rfl, rfl, ?_, rfl, rfl, ?_, rfl⟩
  · simp [mkFlowRunFilterStartTime]
  · simp [mkFlowRunFilterExpectedStartTime]
  · simp [mkFlowRunFilterNextScheduledStartTime]
  · simp [mkTaskRunFilterStartTime]

/-- Claim C6: every validated range filter compiles to BETWEEN(field, after_,
before_) when both bounds are present, LE(field, before_) when only `before_`
is present, and GE(field, after_) when only `after_` is present. -/
theorem c6_validated_range_compile :
    (∀ b a f, mkFlowRunFilterStartTime (some b) (some a) = .ok f →
      f.as_sql_filter = some (.between .flowRunStartTime a b)) ∧
    (∀ b f, mkFlowRunFilterStartTime (some b) none = .ok f →
      f.as_sql_filter = some (.le .flowRunStartTime b)) ∧
    (∀ a f, mkFlowRunFilterStartTime none (some a) = .ok f →
      f.as_sql_filter = some (.ge .flowRunStartTime a)) ∧
    (∀ b a f, mkFlowRunFilterExpectedStartTime (some b) (some a) = .ok f →
      f.as_sql_filter = some (.between .flowRunExpectedStartTime a b)) ∧
    (∀ b f, mkFlowRunFilterExpectedStartTime (some b) none = .ok f →
      f.as_sql_filter = some (.le .flowRunExpectedStartTime b)) ∧
    (∀ a f, mkFlowRunFilterExpectedStartTime none (some a) = .ok f →
      f.as_sql_filter = some (.ge .flowRunExpectedStartTime a)) ∧
    (∀ b a f, mkFlowRunFilterNextScheduledStartTime (some b) (some a) = .ok f →
      f.as_sql_filter = some (.between .flowRunNextScheduledStartTime a b)) ∧
    (∀ b f, mkFlowRunFilterNextScheduledStartTime (some b) none = .ok f →
      f.as_sql_filter = some (.le .flowRunNextScheduledStartTime b)) ∧
    (∀ a f, mkFlowRunFilterNextScheduledStartTime none (some a) = .ok f →
      f.as_sql_filter = some (.ge .flowRunNextScheduledStartTime a)) ∧
    (∀ b a f, mkTaskRunFilterStartTime (some b) (some a) = .ok f →
      f.as_sql_filter = some (.between .taskRunStartTime a b)) ∧
    (∀ b f, mkTaskRunFilterStartTime (some b) none = .ok f →
      f.as_sql_filter = some (.le .taskRunStartTime b)) ∧
    (∀ a f, mkTaskRunFilterStartTime none (some a) = .ok f →
      f.as_sql_filter = some (.ge .taskRunStartTime a)) := by
  refine ⟨?_, ?_, ?_, ?_, ?_, ?_, ?_, ?_, ?_, ?_, ?_, ?_⟩
  · intro b a f h
    by_cases hba : b < a
    · simp [mkFlowRunFilterStartTime, hba] at h
    · simp [mkFlowRunFilterStartTime, hba] at h
      subst h
      rfl
  · intro b f h
    simp [mkFlowRunFilterStartTime] at h
    subst h
    rfl
  · intro a f h
    simp [mkFlowRunFilterStartTime] at h
    subst h
    rfl
  · intro b a f h
    by_cases hba : b < a
    · simp [mkFlowRunFilterExpectedStartTime, hba] at h
    · simp [mkFlowRunFilterExpectedStartTime, hba] at h
      subst h
      rfl
  · intro b f h
    simp [mkFlowRunFilterExpectedStartTime] at h
    subst h
    rfl
  · intro a f h
    simp [mkFlowRunFilterExpectedStartTime] at h
    subst h
    rfl
  · intro b a f h
    by_cases hba : b < a
    · simp [mkFlowRunFilterNextScheduledStartTime, hba] at h
    · simp [mkFlowRunFilterNextScheduledStartTime, hba] at h
      subst h
      rfl
  · intro b f h
    simp [mkFlowRunFilterNextScheduledStartTime] at h
    subst h
    rfl
  · intro a f h
    simp [mkFlowRunFilterNextScheduledStartTime] at h
    subst h
    rfl
  · intro b a f h
    by_cases hba : b < a
    · simp [mkTaskRunFilterStartTime, hba] at h
    · simp [mkTaskRunFilterStartTime, hba] at h
      subst h
      rfl
  · intro b f h
    simp [mkTaskRunFilterStartTime] at h
    subst h
    rfl
  · intro a f h
    simp [mkTaskRunFilterStartTime] at h
    subst h
    rfl

/-- Witness for C6: a concrete validated filter with both bounds compiles to
the inclusive BETWEEN. -/
theorem c6_validated_range_compile_witness :
    FlowRunFilterStartTime.as_sql_filter ⟨some 5, some 3⟩ =
      some (.between .flowRunStartTime 3 5) :=
  c6_validated_range_compile.1 5 3 ⟨some 5, some 3⟩ (by decide)

/-- Claim C7: a validated leaf filter carrying only `is_null_` compiles to the
emptiness test on its column: tag filters to `tags == []` / `tags != []`
(IS_EMPTY / IS_NOT_EMPTY), and the nullable foreign-key filters to
`== None` / `!= None` on the foreign-key column itself. -/
theorem c7_is_null_only_compile (b : Bool) :
    (mkFlowFilterTags none (some b)).map FlowFilterTags.as_sql_filter =
      .ok (some (if b then .eqEmptyList .flowTags else .neEmptyList .flowTags)) ∧
    (mkFlowRunFilterTags none (some b)).map FlowRunFilterTags.as_sql_filter =
      .ok (some (if b then .eqEmptyList .flowRunTags else .neEmptyList .flowRunTags)) ∧
    (mkTaskRunFilterTags none (some b)).map TaskRunFilterTags.as_sql_filter =
      .ok (some (if b then .eqEmptyList .taskRunTags else .neEmptyList .taskRunTags)) ∧
    (mkFlowRunFilterDeploymentId none (some b)).map FlowRunFilterDeploymentId.as_sql_filter =
      .ok (some (if b then .eqNull .flowRunDeploymentId else .neNull .flowRunDeploymentId)) ∧
    (mkFlowRunFilterParentTaskRunId none (some b)).map
        FlowRunFilterParentTaskRunId.as_sql_filter =
      .ok (some (if b then .eqNull .flowRunParentTaskRunId
        else .neNull .flowRunParentTaskRunId)) := by
  cases b <;> exact ⟨rfl, rfl, rfl, rfl, rfl⟩

/-- A successful Pagination construction carries the supplied-or-default
values. -/
theorem mkPagination_ok_eq (d : Int) (limit offset : Option Int) (p : Pagination)
    (h : mkPagination d limit offset = .ok p) :
    p = ⟨limit.getD d, offset.getD 0⟩ := by
  simp only [mkPagination] at h
  split at h
  · exact absurd h (by simp)
  · injection h with h2
    exact h2.symm

/-- Claim C8: Pagination construction fails with OutOfRange exactly when the
supplied limit is negative or exceeds the configured maximum (the configured
default limit), or the supplied offset is negative; an absent limit defaults
to the configured default and an absent offset defaults to 0. -/
theorem c8_pagination_bounds (d : Int) :
    (∀ limit offset, mkPagination d limit offset = .error .outOfRange ↔
      ((∃ l, limit = some l ∧ (l < 0 ∨ d < l)) ∨ (∃ o, offset = some o ∧ o < 0))) ∧
    (∀ limit offset p, mkPagination d limit offset = .ok p →
      (limit = none → p.limit = d) ∧ (offset = none → p.offset = 0)) := by
  constructor
  · intro limit offset
    rcases limit with _ | l <;> rcases offset with _ | o <;>
      simp [mkPagination] <;> omega
  · intro limit offset p h
    have hp := mkPagination_ok_eq d limit offset p h
    subst hp
    constructor
    · rintro rfl
      rfl
    · rintro rfl
      rfl

/-- Witness for C8: concrete in-range construction succeeds with the default
limit and supplied offset. -/
theorem c8_pagination_bounds_witness :
    mkPagination 200 (some 300) none = .error .outOfRange ∧
    ({ limit := 200, offset := 0 } : Pagination).limit = 200 :=
  ⟨((c8_pagination_bounds 200).1 (some 300) none).2 (.inl ⟨300, rfl, .inr (by decide)⟩),
    ((c8_pagination_bounds 200).2 none none ⟨200, 0⟩ rfl).1 rfl⟩

/-- Claim C9: every leaf filter that passed construction-time validation
compiles to a predicate fragment: `as_sql_filter` never falls through to the
no-match (implicit Python None) branch, because the validators guarantee at
least one operator attribute of the dispatched family is set. -/
theorem c9_validated_leaf_compile_total :
    (∀ x f, mkFlowFilterId x = .ok f → f.as_sql_filter.isSome = true) ∧
    (∀ x f, mkFlowFilterName x = .ok f → f.as_sql_filter.isSome = true) ∧
    (∀ x y f, mkFlowFilterTags x y = .ok f → f.as_sql_filter.isSome = true) ∧
    (∀ x y f, mkFlowRunFilterId x y = .ok f → f.as_sql_filter.isSome = true) ∧
    (∀ x y f, mkFlowRunFilterTags x y = .ok f → f.as_sql_filter.isSome = true) ∧
    (∀ x y f, mkFlowRunFilterDeploymentId x y = .ok f → f.as_sql_filter.isSome = true) ∧
    (∀ x f, mkFlowRunFilterStateType x = .ok f → f.as_sql_filter.isSome = true) ∧
    (∀ x f, mkFlowRunFilterFlowVersion x = .ok f → f.as_sql_filter.isSome = true) ∧
    (∀ x y f, mkFlowRunFilterStartTime x y = .ok f → f.as_sql_filter.isSome = true) ∧
    (∀ x y f, mkFlowRunFilterExpectedStartTime x y = .ok f →
      f.as_sql_filter.isSome = true) ∧
    (∀ x y f, mkFlowRunFilterNextScheduledStartTime x y = .ok f →
      f.as_sql_filter.isSome = true) ∧
    (∀ x y f, mkFlowRunFilterParentTaskRunId x y = .ok f →
      f.as_sql_filter.isSome = true) ∧
    (∀ x f, mkTaskRunFilterId x = .ok f → f.as_sql_filter.isSome = true) ∧
    (∀ x y f, mkTaskRunFilterTags x y = .ok f → f.as_sql_filter.isSome = true) ∧
    (∀ x f, mkTaskRunFilterStateType x = .ok f → f.as_sql_filter.isSome = true) ∧
    (∀ x y f, mkTaskRunFilterStartTime x y = .ok f → f.as_sql_filter.isSome = true) := by
  refine ⟨?_, ?_, ?_, ?_, ?_, ?_, ?_, ?_, ?_, ?_, ?_, ?_, ?_, ?_, ?_, ?_⟩
  · intro x f h
    rcases x with _ | l
    · simp [mkFlowFilterId] at h
    · simp [mkFlowFilterId] at h
      subst h
      rfl
  · intro x f h
    rcases x with _ | l
    · simp [mkFlowFilterName] at h
    · simp [mkFlowFilterName] at h
      subst h
      rfl
  · intro x y f h
    rcases x with _ | l <;> rcases y with _ | bo
    · simp [mkFlowFilterTags] at h
    · simp [mkFlowFilterTags, truthyBool] at h
      subst h
      rfl
    · simp [mkFlowFilterTags, truthyBool] at h
      subst h
      rfl
    · cases bo
      · simp [mkFlowFilterTags, truthyBool] at h
        subst h
        rfl
      · simp [mkFlowFilterTags, truthyBool] at h
  · intro x y f h
    rcases x with _ | l <;> rcases y with _ | m
    · simp [mkFlowRunFilterId] at h
    · simp [mkFlowRunFilterId, truthyList] at h
      subst h
      rfl
    · simp [mkFlowRunFilterId, truthyList] at h
      subst h
      rfl
    · rcases m with _ | ⟨v, m2⟩
      · simp [mkFlowRunFilterId, truthyList] at h
        subst h
        rfl
      · simp [mkFlowRunFilterId, truthyList] at h
  · intro x y f h
    rcases x with _ | l <;> rcases y with _ | bo
    · simp [mkFlowRunFilterTags] at h
    · simp [mkFlowRunFilterTags, truthyBool] at h
      subst h
      rfl
    · simp [mkFlowRunFilterTags, truthyBool] at h
      subst h
      rfl
    · cases bo
      · simp [mkFlowRunFilterTags, truthyBool] at h
        subst h
        rfl
      · simp [mkFlowRunFilterTags, truthyBool] at h
  · intro x y f h
    rcases x with _ | l <;> rcases y with _ | bo
    · simp [mkFlowRunFilterDeploymentId] at h
    · simp [mkFlowRunFilterDeploymentId, truthyBool] at h
      subst h
      rfl
    · simp [mkFlowRunFilterDeploymentId, truthyBool] at h
      subst h
      rfl
    · cases bo
      · simp [mkFlowRunFilterDeploymentId, truthyBool] at h
        subst h
        rfl
      · simp [mkFlowRunFilterDeploymentId, truthyBool] at h
  · intro x f h
    rcases x with _ | l
    · simp [mkFlowRunFilterStateType] at h
    · simp [mkFlowRunFilterStateType] at h
      subst h
      rfl
  · intro x f h
    rcases x with _ | l
    · simp [mkFlowRunFilterFlowVersion] at h
    · simp [mkFlowRunFilterFlowVersion] at h
      subst h
      rfl
  · intro x y f h
    rcases x with _ | b <;> rcases y with _ | a
    · simp [mkFlowRunFilterStartTime] at h
    · simp [mkFlowRunFilterStartTime] at h
      subst h
      rfl
    · simp [mkFlowRunFilterStartTime] at h
      subst h
      rfl
    · by_cases hba : b < a
      · simp [mkFlowRunFilterStartTime, hba] at h
      · simp [mkFlowRunFilterStartTime, hba] at h
        subst h
        rfl
  · intro x y f h
    rcases x with _ | b <;> rcases y with _ | a
    · simp [mkFlowRunFilterExpectedStartTime] at h
    · simp [mkFlowRunFilterExpectedStartTime] at h
      subst h
      rfl
    · simp [mkFlowRunFilterExpectedStartTime] at h
      subst h
      rfl
    · by_cases hba : b < a
      · simp [mkFlowRunFilterExpectedStartTime, hba] at h
      · simp [mkFlowRunFilterExpectedStartTime, hba] at h
        subst h
        rfl
  · intro x y f h
    rcases x with _ | b <;> rcases y with _ | a
    · simp [mkFlowRunFilterNextScheduledStartTime] at h
    · simp [mkFlowRunFilterNextScheduledStartTime] at h
      subst h
      rfl
    · simp [mkFlowRunFilterNextScheduledStartTime] at h
      subst h
      rfl
    · by_cases hba : b < a
      · simp [mkFlowRunFilterNextScheduledStartTime, hba] at h
      · simp [mkFlowRunFilterNextScheduledStartTime, hba] at h
        subst h
        rfl
  · intro x y f h
    rcases x with _ | l <;> rcases y with _ | bo
    · simp [mkFlowRunFilterParentTaskRunId] at h
    · simp [mkFlowRunFilterParentTaskRunId, truthyBool] at h
      subst h
      rfl
    · simp [mkFlowRunFilterParentTaskRunId, truthyBool] at h
      subst h
      rfl
    · cases bo
      · simp [mkFlowRunFilterParentTaskRunId, truthyBool] at h
        subst h
        rfl
      · simp [mkFlowRunFilterParentTaskRunId, truthyBool] at h
  · intro x f h
    rcases x with _ | l
    · simp [mkTaskRunFilterId] at h
    · simp [mkTaskRunFilterId] at h
      subst h
      rfl
  · intro x y f h
    rcases x with _ | l <;> rcases y with _ | bo
    · simp [mkTaskRunFilterTags] at h
    · simp [mkTaskRunFilterTags, truthyBool] at h
      subst h
      rfl
    · simp [mkTaskRunFilterTags, truthyBool] at h
      subst h
      rfl
    · cases bo
      · simp [mkTaskRunFilterTags, truthyBool] at h
        subst h
        rfl
      · simp [mkTaskRunFilterTags, truthyBool] at h
  · intro x f h
    rcases x with _ | l
    · simp [mkTaskRunFilterStateType] at h
    · simp [mkTaskRunFilterStateType] at h
      subst h
      rfl
  · intro x y f h
    rcases x with _ | b <;> rcases y with _ | a
    · simp [mkTaskRunFilterStartTime] at h
    · simp [mkTaskRunFilterStartTime] at h
      subst h
      rfl
    · simp [mkTaskRunFilterStartTime] at h
      subst h
      rfl
    · by_cases hba : b < a
      · simp [mkTaskRunFilterStartTime, hba] at h
      · simp [mkTaskRunFilterStartTime, hba] at h
        subst h
        rfl

/-- Witness for C9: a concrete validated leaf filter compiles to a present
fragment. -/
theorem c9_validated_leaf_compile_total_witness :
    (FlowFilterId.as_sql_filter ⟨some [1]⟩).isSome = true :=
  c9_validated_leaf_compile_total.1 (some [1]) ⟨some [1]⟩ rfl

/-- Claim C10: the configured maximum for the pagination limit is the
configured default itself (`le=prefect.settings.orion.api.default_limit`): any
supplied limit strictly above the default fails with OutOfRange, while a limit
equal to the default succeeds. -/
theorem c10_limit_max_equals_default (d : Int) (hd : 0 ≤ d) :
    (∀ l offset, d < l → mkPagination d (some l) offset = .error .outOfRange) ∧
    mkPagination d (some d) none = .ok ⟨d, 0⟩ := by
  constructor
  · intro l offset hl
    simp [mkPagination, hl]
  · have h0 : ¬d < 0 := not_lt.2 hd
    simp [mkPagination, h0]

/-- Witness for C10: with default limit 200, a supplied limit of 201 is
rejected and a supplied limit of 200 is accepted. -/
theorem c10_limit_max_equals_default_witness :
    mkPagination 200 (some 201) none = .error .outOfRange ∧
    mkPagination 200 (some 200) none = .ok ⟨200, 0⟩ :=
  ⟨(c10_limit_max_equals_default 200 (by decide)).1 201 none (by decide),
    (c10_limit_max_equals_default 200 (by decide)).2⟩

end PrefectFilters
